import Mathlib

/-!
Verification development for the `toyota-radar-driver` repository.

The repository's scripts (`toyota_radar_rpi.py`, `toyota_radar_2019.py`,
`toyota_radar_debug.py`, `radar_experimental.py`) drive a Toyota radar unit
over two CAN channels: they emulate the missing Driving Support Unit by
sending a fixed table of periodic frames plus a freshly encoded ACC control
frame on every tick of a 100 Hz loop, and they listen on the radar channel
for track frames.  The reusable driver module consumed by
`radar_callbacks.py` / `radar_curses.py` is not part of the source tree;
where a property can only be decided against that module it is modelled
from the specification and marked as such in the doc comment.

Machine integers do not overflow in any of the embedded code (all counters
are unbounded Python ints), so counters are embedded as `Nat`.  Payload
bytes are embedded as `List Nat`; physical time as `ℚ`.
-/

namespace ToyotaRadar

/-- A received CAN frame: arbitration id plus payload bytes
(`boo` / `msg` arguments of the `on_message_received` handlers). -/
structure CanMsg where
  arbitration_id : Nat
  data : List Nat
deriving DecidableEq

/-- The signal map produced by decoding a radar track frame with the external
codec (`cantools` + `toyota_prius_2017_adas.dbc`).  Per the external-codec
contract the decoded map of a track message carries the `VALID` indicator and
the longitudinal distance signal; only those two signals are read by the
scripts. -/
structure DecodedTrack where
  VALID : Nat
  LONG_DIST : Int
deriving DecidableEq

/-- The external decode capability: arbitration id and payload to an optional
decoded signal map (`None` models a raised decode error, which every handler
catches and ignores). -/
def Codec : Type := Nat → List Nat → Option DecodedTrack

/-- One printed "VALID track" report (the observable effect of a valid decode
in the listener scripts). -/
structure TrackReport where
  track_id : Nat
  dist : Int
deriving DecidableEq

/-- The module-level `MessageLogger` of `src/toyota_radar_2019.py` (lines
14-23). -/
structure MessageLogger where
  can0_tx : Nat
  can1_rx : Nat
  radar_status_msgs : Nat
  radar_track_msgs : Nat
  valid_tracks : Nat
  last_4ff_data : Option (List Nat)
deriving DecidableEq

/-- `OnCanRadar.on_message_received` of `src/toyota_radar_2019.py` (lines
32-57).  Counts every frame into `can1_rx`; 0x4FF frames update the status
fields; frames with `0x210 <= id <= 0x21F` are track frames: when a codec is
present, the frame decodes, and the decoded `VALID` equals 1, `valid_tracks`
is incremented and one distance report is printed.  The returned list holds
the valid-track reports printed by this call. -/
def onMessageReceived2019 (db : Option Codec) (st : MessageLogger) (msg : CanMsg) :
    MessageLogger × List TrackReport :=
  let st := { st with can1_rx := st.can1_rx + 1 }
  if msg.arbitration_id = 0x4FF then
    let st := { st with radar_status_msgs := st.radar_status_msgs + 1 }
    if st.last_4ff_data ≠ some msg.data then
      ({ st with last_4ff_data := some msg.data }, [])
    else
      (st, [])
  else if 0x210 ≤ msg.arbitration_id ∧ msg.arbitration_id ≤ 0x21F then
    let st := { st with radar_track_msgs := st.radar_track_msgs + 1 }
    match db with
    | some decode =>
      match decode msg.arbitration_id msg.data with
      | some decoded =>
        if decoded.VALID = 1 then
          ({ st with valid_tracks := st.valid_tracks + 1 },
           [⟨msg.arbitration_id, decoded.LONG_DIST⟩])
        else
          (st, [])
      | none => (st, [])
    | none => (st, [])
  else
    (st, [])

/-- `OnCan.on_message_received` of `src/toyota_radar_rpi.py` (lines 48-59).
Frames with `0x210 <= id < 0x21F` are treated as track frames: with a codec
present, a successful decode whose `VALID` equals 1 prints one distance
report; a decode error (or missing key) is swallowed.  Without a codec the
raw frame is printed, which is not a track report. -/
def onMessageReceivedRpi (db : Option Codec) (msg : CanMsg) : List TrackReport :=
  if 0x210 ≤ msg.arbitration_id ∧ msg.arbitration_id < 0x21F then
    match db with
    | some decode =>
      match decode msg.arbitration_id msg.data with
      | some m => if m.VALID = 1 then [⟨msg.arbitration_id, m.LONG_DIST⟩] else []
      | none => []
    | none => []
  else
    []

/-- The per-listener counters of `OnCan` in `src/toyota_radar_debug.py`
(lines 14-17). -/
structure OnCanDebugState where
  msg_count : Nat
  valid_tracks : Nat
deriving DecidableEq

/-- `OnCan.on_message_received` of `src/toyota_radar_debug.py` (lines 28-47).
Counts every frame into `msg_count`; frames with `0x210 <= id <= 0x21F`
increment `valid_tracks` and print one report exactly when the decode
succeeds with `VALID` equal to 1. -/
def onMessageReceivedDebug (db : Option Codec) (st : OnCanDebugState) (msg : CanMsg) :
    OnCanDebugState × List TrackReport :=
  let st := { st with msg_count := st.msg_count + 1 }
  if 0x210 ≤ msg.arbitration_id ∧ msg.arbitration_id ≤ 0x21F then
    match db with
    | some decode =>
      match decode msg.arbitration_id msg.data with
      | some decoded =>
        if decoded.VALID = 1 then
          ({ st with valid_tracks := st.valid_tracks + 1 },
           [⟨msg.arbitration_id, decoded.LONG_DIST⟩])
        else
          (st, [])
      | none => (st, [])
    | none => (st, [])
  else
    (st, [])

/-- The track-id window test of `src/toyota_radar_rpi.py` line 49:
`0x210 <= boo.arbitration_id < 0x21F`. -/
def rpiIsTrackId (id : Nat) : Bool := decide (0x210 ≤ id ∧ id < 0x21F)

/-- The track-id window test of `src/toyota_radar_2019.py` line 42:
`0x210 <= msg.arbitration_id <= 0x21F`. -/
def radar2019IsTrackId (id : Nat) : Bool := decide (0x210 ≤ id ∧ id ≤ 0x21F)

/-- The track-id window test of `src/toyota_radar_debug.py` line 35:
`0x210 <= msg.arbitration_id <= 0x21F`. -/
def debugIsTrackId (id : Nat) : Bool := decide (0x210 ≤ id ∧ id ≤ 0x21F)

/-- The track-id window test of `src/radar_experimental.py` line 42:
`0x210 <= msg.arbitration_id <= 0x21F`. -/
def experimentalIsTrackId (id : Nat) : Bool := decide (0x210 ≤ id ∧ id ≤ 0x21F)

/-- A frame is a valid track frame for a given window: its arbitration id is
inside the window, a codec is present, the payload decodes, and the decoded
`VALID` signal equals 1. -/
def isValidTrackFrame (db : Option Codec) (window : Nat → Bool) (msg : CanMsg) : Bool :=
  window msg.arbitration_id &&
    match db with
    | some decode =>
      match decode msg.arbitration_id msg.data with
      | some d => d.VALID == 1
      | none => false
    | none => false

/-- One row of the `STATIC_MSGS` table of `src/toyota_radar_rpi.py` (lines
77-87): `(addr, ecu, cars, bus, fr_step, vl)`.  `src/toyota_radar_debug.py`
(lines 64-74) carries an identical copy of the table. -/
structure StaticMsg where
  addr : Nat
  ecu : Nat
  cars : List Nat
  bus : Nat
  fr_step : Nat
  vl : List Nat
deriving DecidableEq

/-- The `STATIC_MSGS` table of `src/toyota_radar_rpi.py` lines 77-87 (ECU.DSU
= 1; the cars tuple (PRIUS, RAV4H, LEXUS_RXH, RAV4, COROLLA) is [0,3,1,2,4]). -/
def STATIC_MSGS : List StaticMsg :=
  [ ⟨0x141, 1, [0, 3, 1, 2, 4], 1, 2, [0x00, 0x00, 0x00, 0x46]⟩,
    ⟨0x128, 1, [0, 3, 1, 2, 4], 1, 3, [0xf4, 0x01, 0x90, 0x83, 0x00, 0x37]⟩,
    ⟨0x283, 1, [0, 3, 1, 2, 4], 0, 3, [0x00, 0x00, 0x00, 0x00, 0x00, 0x00, 0x8c]⟩,
    ⟨0x344, 1, [0, 3, 1, 2, 4], 0, 5, [0x00, 0x00, 0x01, 0x00, 0x00, 0x00, 0x00, 0x50]⟩,
    ⟨0x160, 1, [0, 3, 1, 2, 4], 1, 7, [0x00, 0x00, 0x08, 0x12, 0x01, 0x31, 0x9c, 0x51]⟩,
    ⟨0x161, 1, [0, 3, 1, 2, 4], 1, 7, [0x00, 0x1e, 0x00, 0x00, 0x00, 0x80, 0x07]⟩,
    ⟨0x365, 1, [2, 4], 0, 20, [0x00, 0x00, 0x00, 0x80, 0xfc, 0x00, 0x08]⟩,
    ⟨0x366, 1, [2, 4], 0, 20, [0x00, 0x72, 0x07, 0xff, 0x09, 0xfe, 0x00]⟩,
    ⟨0x4CB, 1, [0, 3, 1, 2, 4], 0, 100, [0x0c, 0x00, 0x00, 0x00, 0x00, 0x00, 0x00, 0x00]⟩ ]

/-- One row of the `STATIC_MSGS_2019` table of `src/toyota_radar_2019.py`
(lines 61-80): `(addr, bus, fr_step, vl)`. -/
structure StaticMsg2019 where
  addr : Nat
  bus : Nat
  fr_step : Nat
  vl : List Nat
deriving DecidableEq

/-- The `STATIC_MSGS_2019` table of `src/toyota_radar_2019.py` lines 61-80. -/
def STATIC_MSGS_2019 : List StaticMsg2019 :=
  [ ⟨0x141, 0, 2, [0x00, 0x00, 0x00, 0x46]⟩,
    ⟨0x128, 1, 3, [0xf4, 0x01, 0x90, 0x83, 0x00, 0x37]⟩,
    ⟨0x283, 0, 3, [0x00, 0x00, 0x00, 0x00, 0x00, 0x00, 0x8c]⟩,
    ⟨0x344, 0, 5, [0x00, 0x00, 0x01, 0x00, 0x00, 0x00, 0x00, 0x50]⟩,
    ⟨0x160, 1, 7, [0x00, 0x00, 0x08, 0x12, 0x01, 0x31, 0x9c, 0x51]⟩,
    ⟨0x161, 1, 7, [0x00, 0x1e, 0x00, 0x00, 0x00, 0x80, 0x07]⟩,
    ⟨0x365, 0, 20, [0x00, 0x00, 0x00, 0x80, 0x03, 0x00, 0x08]⟩,
    ⟨0x366, 0, 20, [0x00, 0x00, 0x4d, 0x82, 0x40, 0x02, 0x00]⟩,
    ⟨0x4CB, 0, 100, [0x0c, 0x00, 0x00, 0x00, 0x00, 0x00, 0x00, 0x00]⟩,
    ⟨0x1D4, 0, 3, [0x00, 0x00, 0x00, 0x00, 0x00, 0x00, 0x00, 0x00]⟩,
    ⟨0x620, 0, 20, [0x00, 0x00, 0x00, 0x00, 0x00, 0x00, 0x00, 0x00]⟩ ]

/-- The per-tick gate of the static-message send loops:
`if frame % fr_step == 0:` (rpi line 263, 2019 line 222, debug line 207). -/
def firesAt (fr_step t : Nat) : Bool := t % fr_step == 0

/-- Number of ticks in 0..N (inclusive) on which a period-`fr_step` entry
fires. -/
def fireCount (fr_step N : Nat) : Nat :=
  ((List.range (N + 1)).filter (fun t => firesAt fr_step t)).length

/-- The payload assembled for one `STATIC_MSGS` entry on one tick of the rpi
main loop (src/toyota_radar_rpi.py lines 264-270): the fixed payload `vl`,
with one rolling-counter byte appended when the arbitration id is 0x489 or
0x48a on bus 0 (`cnt = int((frame / 100) % 0xf) + 1`, high bit set for
0x48a). -/
def tosendRpi (e : StaticMsg) (frame : Nat) : List Nat :=
  let tosend := e.vl
  if (e.addr = 0x489 ∨ e.addr = 0x48a) ∧ e.bus = 0 then
    let cnt := frame / 100 % 0xf + 1
    let cnt := if e.addr = 0x48a then cnt + (1 <<< 7) else cnt
    tosend ++ [cnt]
  else
    tosend

/-- The payload assembled for one `STATIC_MSGS` entry on one tick of the
debug main loop (src/toyota_radar_debug.py lines 208-213); the loop body is
identical to the rpi one. -/
def tosendDebug (e : StaticMsg) (frame : Nat) : List Nat :=
  let tosend := e.vl
  if (e.addr = 0x489 ∨ e.addr = 0x48a) ∧ e.bus = 0 then
    let cnt := frame / 100 % 0xf + 1
    let cnt := if e.addr = 0x48a then cnt + (1 <<< 7) else cnt
    tosend ++ [cnt]
  else
    tosend

/-- Reception of a whole sequence of frames by the 2019 listener. -/
def processRx2019 (db : Option Codec) (st : MessageLogger) (msgs : List CanMsg) :
    MessageLogger :=
  msgs.foldl (fun s m => (onMessageReceived2019 db s m).1) st

/-- Reception of a whole sequence of frames by the debug listener. -/
def processRxDebug (db : Option Codec) (st : OnCanDebugState) (msgs : List CanMsg) :
    OnCanDebugState :=
  msgs.foldl (fun s m => (onMessageReceivedDebug db s m).1) st

/-- The signal map passed to the `ACC_CONTROL` encoder (field names as in the
encode dictionaries of the scripts; `ACCEL_CMD` is a physical value, embedded
as `ℚ`). -/
structure AccControlSignals where
  ACCEL_CMD : ℚ
  SET_ME_X63 : Nat
  SET_ME_1 : Nat
  RELEASE_STANDSTILL : Nat
  CANCEL_REQ : Nat
  CHECKSUM : Nat
deriving DecidableEq

/-- The constant benign signal assignment all three steady-state loops
encode: `ACCEL_CMD 0.0, SET_ME_X63 0x63, SET_ME_1 1, RELEASE_STANDSTILL 1,
CANCEL_REQ 0, CHECKSUM 113`. -/
def benignAccSignals : AccControlSignals := ⟨0, 0x63, 1, 1, 0, 113⟩

/-- The `ACC_CONTROL` signal set encoded on tick `frame` of the rpi main loop
(src/toyota_radar_rpi.py lines 249-259), guarded by `if frame % 1 == 0:`. -/
def accEncodeRpi (frame : Nat) : Option AccControlSignals :=
  if frame % 1 = 0 then some ⟨0, 0x63, 1, 1, 0, 113⟩ else none

/-- The `ACC_CONTROL` signal set encoded on tick `frame` of the 2019 main
loop (src/toyota_radar_2019.py lines 207-218), guarded by
`if frame % 1 == 0 and acc_message:`; `accPresent` models whether the
`ACC_CONTROL` message was found in the DBC. -/
def accEncode2019 (accPresent : Bool) (frame : Nat) : Option AccControlSignals :=
  if frame % 1 = 0 ∧ accPresent = true then some ⟨0, 0x63, 1, 1, 0, 113⟩ else none

/-- The `ACC_CONTROL` signal set encoded on tick `frame` of the debug main
loop (src/toyota_radar_debug.py lines 195-203), guarded by
`if frame % 1 == 0:`. -/
def accEncodeDebug (frame : Nat) : Option AccControlSignals :=
  if frame % 1 = 0 then some ⟨0, 0x63, 1, 1, 0, 113⟩ else none

/-- Sequential execution of a list of external calls (sends, stops,
shutdowns) with no exception handler around the individual calls, as in the
bodies of the scripts' while-loops and cleanup blocks: the first raised
error aborts the sequence and escapes.  Each call's outcome is given by the
environment as an `Except` value.  Returns the escaping result, the number
of calls begun, and the number of calls completed successfully. -/
def runSends : List (Except String Unit) → Except String Unit × Nat × Nat
  | [] => (Except.ok (), 0, 0)
  | Except.error e :: _ => (Except.error e, 1, 0)
  | Except.ok _ :: rest =>
    let r := runSends rest
    (r.1, r.2.1 + 1, r.2.2 + 1)

/-- `send_message` of src/toyota_radar_2019.py lines 83-88: `bus.send(...)`
followed by `logger.can0_tx += 1`.  There is no exception handler, so the
counter is incremented only when the send returns, and a raised error
escapes to the caller with the counter untouched. -/
def send_message2019 (sendResult : Except String Unit) (can0_tx : Nat) :
    Except String Nat :=
  match sendResult with
  | Except.error e => Except.error e
  | Except.ok _ => Except.ok (can0_tx + 1)

/-- The effect of wrapping an executed sequence in a bare
`try: ... except: pass`: any escaping error is swallowed; the counts of
begun and completed calls are unchanged. -/
def tryPass (x : Except String Unit × Nat × Nat) : Except String Unit × Nat × Nat :=
  (Except.ok (), x.2)

/-- Sequencing of two already-evaluated statement blocks: when the first
block's result is a raised error, the second block is never begun. -/
def seqSteps (x y : Except String Unit × Nat × Nat) : Except String Unit × Nat × Nat :=
  match x.1 with
  | Except.error e => (Except.error e, x.2)
  | Except.ok _ => (y.1, x.2.1 + y.2.1, x.2.2 + y.2.2)

/-- The `finally` cleanup of src/toyota_radar_rpi.py lines 287-301:
`notifier.stop()`, `can_bus1.shutdown()` and `can_bus2.shutdown()`, each
inside its own `try: ... except: pass` (src/toyota_radar_debug.py lines
243-257 is identical in structure). -/
def cleanupRpi (stopN shut1 shut2 : Except String Unit) :
    Except String Unit × Nat × Nat :=
  seqSteps (tryPass (runSends [stopN]))
    (seqSteps (tryPass (runSends [shut1])) (tryPass (runSends [shut2])))

/-- The `finally` cleanup of src/toyota_radar_2019.py lines 270-275: a
single `try:` around `notifier.stop()`, `can_bus0.shutdown()`,
`can_bus1.shutdown()` with one bare `except: pass`. -/
def cleanup2019 (stopN shut0 shut1 : Except String Unit) :
    Except String Unit × Nat × Nat :=
  tryPass (runSends [stopN, shut0, shut1])

/-- The post-iteration delay of the rpi main loop, as a function of the time
`now` at which the iteration's work completed: `time.sleep(1. / 100)`
(src/toyota_radar_rpi.py line 279) always sleeps the constant tick period,
independent of `now`. -/
def loopSleepRpi (_now : ℚ) : ℚ := 1 / 100

/-- The post-iteration delay of the 2019 main loop: `time.sleep(1.0 / 100)`
(src/toyota_radar_2019.py line 262). -/
def loopSleep2019 (_now : ℚ) : ℚ := 1 / 100

/-- The post-iteration delay of the debug main loop: `time.sleep(1.0 / 100)`
(src/toyota_radar_debug.py line 231). -/
def loopSleepDebug (_now : ℚ) : ℚ := 1 / 100

/-- Modelled from the spec: the delay step of a fixed-rate deadline
scheduler (`next_deadline += tick_period`, then sleep until the deadline),
as spec section 4.2 prescribes: at time `now` with pending deadline `d` the
scheduler sleeps `max 0 (d - now)`. -/
def deadlineSleep (d now : ℚ) : ℚ := max 0 (d - now)

/-- Modelled from the spec: the `RadarTrack` record of the
`toyota_radar_driver` module, which is imported by `radar_callbacks.py` and
`radar_curses.py` but is not part of the source tree.  Spec section 3: track
id, longitudinal distance, lateral distance, relative speed, new-track flag,
last-update timestamp. -/
structure RadarTrack where
  track_id : Nat
  long_dist : ℚ
  lat_dist : ℚ
  rel_speed : ℚ
  new_track : Bool
  timestamp : ℚ
deriving DecidableEq

/-- Modelled from the spec: the track-cache upsert of the
`toyota_radar_driver` module (module not in the source tree).  Spec sections
4.3 and 8: on a valid decode, upsert the `RadarTrack` for that id with
`timestamp = now`; `new_track` is true exactly when either no prior entry
existed for the id or the prior entry's age at this moment strictly exceeds
`track_timeout`.  Returns the updated cache and the upserted track. -/
def upsertTrack (cache : Nat → Option RadarTrack) (track_timeout now : ℚ)
    (id : Nat) (long lat spd : ℚ) : (Nat → Option RadarTrack) × RadarTrack :=
  let isNew :=
    match cache id with
    | none => true
    | some prev => decide (now - prev.timestamp > track_timeout)
  let tr : RadarTrack := ⟨id, long, lat, spd, isNew, now⟩
  (fun j => if j = id then some tr else cache j, tr)

/-- The empty track cache. -/
def emptyTrackCache : Nat → Option RadarTrack := fun _ => none

/-- Scenario of spec section 8: track id 1 valid at time 0 with
`track_timeout = 0.5`. -/
def scenarioStep1 : (Nat → Option RadarTrack) × RadarTrack :=
  upsertTrack emptyTrackCache (1 / 2) 0 1 10 0 0

/-- Scenario: the same id valid again at time 0.1. -/
def scenarioStep2 : (Nat → Option RadarTrack) × RadarTrack :=
  upsertTrack scenarioStep1.1 (1 / 2) (1 / 10) 1 10 0 0

/-- Scenario: the same id valid again at time 0.7 (age 0.6 > 0.5). -/
def scenarioStep3 : (Nat → Option RadarTrack) × RadarTrack :=
  upsertTrack scenarioStep2.1 (1 / 2) (7 / 10) 1 10 0 0

end ToyotaRadar

namespace ToyotaRadar

lemma valid_tracks_2019_eq (db : Option Codec) (st : MessageLogger) (msg : CanMsg) :
    (onMessageReceived2019 db st msg).1.valid_tracks
      = st.valid_tracks + (if isValidTrackFrame db radar2019IsTrackId msg then 1 else 0) := by
  unfold onMessageReceived2019 isValidTrackFrame radar2019IsTrackId
  by_cases h4 : msg.arbitration_id = 0x4FF
  · have hw : ¬ (0x210 ≤ msg.arbitration_id ∧ msg.arbitration_id ≤ 0x21F) := by omega
    simp [h4, hw]
    split <;> rfl
  · by_cases hw : 0x210 ≤ msg.arbitration_id ∧ msg.arbitration_id ≤ 0x21F
    · rcases db with _ | decode
      · simp [h4, hw]
      · rcases hdec : decode msg.arbitration_id msg.data with _ | d
        · simp [h4, hw, hdec]
        · by_cases hv : d.VALID = 1
          · simp [h4, hw, hdec, hv]
          · simp [h4, hw, hdec, hv]
    · rcases db with _ | decode
      · simp [h4, hw]
      · rcases hdec : decode msg.arbitration_id msg.data with _ | d
        · simp [h4, hw, hdec]
        · simp [h4, hw, hdec]

lemma reports_2019_eq (db : Option Codec) (st : MessageLogger) (msg : CanMsg) :
    (onMessageReceived2019 db st msg).2.length
      = if isValidTrackFrame db radar2019IsTrackId msg then 1 else 0 := by
  unfold onMessageReceived2019 isValidTrackFrame radar2019IsTrackId
  by_cases h4 : msg.arbitration_id = 0x4FF
  · have hw : ¬ (0x210 ≤ msg.arbitration_id ∧ msg.arbitration_id ≤ 0x21F) := by omega
    simp [h4, hw]
    split <;> rfl
  · by_cases hw : 0x210 ≤ msg.arbitration_id ∧ msg.arbitration_id ≤ 0x21F
    · rcases db with _ | decode
      · simp [h4, hw]
      · rcases hdec : decode msg.arbitration_id msg.data with _ | d
        · simp [h4, hw, hdec]
        · by_cases hv : d.VALID = 1
          · simp [h4, hw, hdec, hv]
          · simp [h4, hw, hdec, hv]
    · rcases db with _ | decode
      · simp [h4, hw]
      · rcases hdec : decode msg.arbitration_id msg.data with _ | d
        · simp [h4, hw, hdec]
        · simp [h4, hw, hdec]

lemma reports_rpi_eq (db : Option Codec) (msg : CanMsg) :
    (onMessageReceivedRpi db msg).length
      = if isValidTrackFrame db rpiIsTrackId msg then 1 else 0 := by
  unfold onMessageReceivedRpi isValidTrackFrame rpiIsTrackId
  by_cases hw : 0x210 ≤ msg.arbitration_id ∧ msg.arbitration_id < 0x21F
  · rcases db with _ | decode
    · simp [hw]
    · rcases hdec : decode msg.arbitration_id msg.data with _ | d
      · simp [hw, hdec]
      · by_cases hv : d.VALID = 1
        · simp [hw, hdec, hv]
        · simp [hw, hdec, hv]
  · rcases db with _ | decode
    · simp [hw]
    · rcases hdec : decode msg.arbitration_id msg.data with _ | d
      · simp [hw, hdec]
      · simp [hw, hdec]

/-- C1: a received frame whose arbitration id lies in the track-id window and
which decodes with `VALID = 1` produces exactly one valid-track upsert (in
`toyota_radar_2019.py`: exactly one increment of `valid_tracks` and exactly
one distance report; in `toyota_radar_rpi.py`: exactly one distance report);
any frame outside the window, failing to decode, or decoding with
`VALID ≠ 1` produces no increment and no report. -/
theorem track_upsert_iff_valid (db : Option Codec) (st : MessageLogger) (msg : CanMsg) :
    ((onMessageReceived2019 db st msg).1.valid_tracks
        = st.valid_tracks + (if isValidTrackFrame db radar2019IsTrackId msg then 1 else 0))
    ∧ ((onMessageReceived2019 db st msg).2.length
        = if isValidTrackFrame db radar2019IsTrackId msg then 1 else 0)
    ∧ ((onMessageReceivedRpi db msg).length
        = if isValidTrackFrame db rpiIsTrackId msg then 1 else 0) :=
  ⟨valid_tracks_2019_eq db st msg, reports_2019_eq db st msg, reports_rpi_eq db msg⟩

lemma fireCount_succ (P n : Nat) :
    fireCount P (n + 1) = fireCount P n + (if (n + 1) % P = 0 then 1 else 0) := by
  unfold fireCount
  rw [show n + 1 + 1 = (n + 1) + 1 from rfl, List.range_succ, List.filter_append,
    List.length_append]
  by_cases h : (n + 1) % P = 0 <;> simp [firesAt, h]

lemma fireCount_eq (P : Nat) (hP : 1 ≤ P) : ∀ N, fireCount P N = N / P + 1
  | 0 => by simp [fireCount, firesAt, List.range_succ, List.range_zero]
  | (n + 1) => by
      rw [fireCount_succ, fireCount_eq P hP n, Nat.succ_div]
      by_cases h : P ∣ n + 1
      · rw [if_pos (Nat.mod_eq_zero_of_dvd h), if_pos h]
      · rw [if_neg (fun hm => h (Nat.dvd_of_mod_eq_zero hm)), if_neg h]

/-- C2: an entry of the static-message tables with period `fr_step = P` is
sent on tick `t` exactly when `t % P = 0`, and over ticks `0..N` inclusive it
fires exactly `N / P + 1` times. -/
theorem static_fire_schedule (P : Nat)
    (hP : P ∈ STATIC_MSGS.map StaticMsg.fr_step
        ∨ P ∈ STATIC_MSGS_2019.map StaticMsg2019.fr_step) :
    (∀ t, firesAt P t = true ↔ t % P = 0) ∧ ∀ N, fireCount P N = N / P + 1 := by
  have h1 : 1 ≤ P := by
    rcases hP with h | h <;> simp [STATIC_MSGS, STATIC_MSGS_2019] at h <;> omega
  exact ⟨fun t => by simp [firesAt], fireCount_eq P h1⟩

/-- Witness for C2 at the period-2 entry 0x141: it fires on tick 4 and fires
5 times over ticks 0..9. -/
theorem static_fire_schedule_check : firesAt 2 4 = true ∧ fireCount 2 9 = 5 := by
  have h := static_fire_schedule 2 (Or.inl (by decide))
  exact ⟨(h.1 4).mpr (by decide), by rw [h.2 9]⟩

lemma rx_step_2019 (db : Option Codec) (st : MessageLogger) (msg : CanMsg) :
    (onMessageReceived2019 db st msg).1.can1_rx = st.can1_rx + 1 := by
  unfold onMessageReceived2019
  by_cases h4 : msg.arbitration_id = 0x4FF
  · simp [h4]
    split <;> rfl
  · by_cases hw : 0x210 ≤ msg.arbitration_id ∧ msg.arbitration_id ≤ 0x21F
    · rcases db with _ | decode
      · simp [h4, hw]
      · rcases hdec : decode msg.arbitration_id msg.data with _ | d
        · simp [h4, hw, hdec]
        · by_cases hv : d.VALID = 1 <;> simp [h4, hw, hdec, hv]
    · simp [h4, hw]

lemma rx_step_debug (db : Option Codec) (st : OnCanDebugState) (msg : CanMsg) :
    (onMessageReceivedDebug db st msg).1.msg_count = st.msg_count + 1 := by
  unfold onMessageReceivedDebug
  by_cases hw : 0x210 ≤ msg.arbitration_id ∧ msg.arbitration_id ≤ 0x21F
  · rcases db with _ | decode
    · simp [hw]
    · rcases hdec : decode msg.arbitration_id msg.data with _ | d
      · simp [hw, hdec]
      · by_cases hv : d.VALID = 1 <;> simp [hw, hdec, hv]
  · simp [hw]

lemma processRx2019_count (db : Option Codec) :
    ∀ (msgs : List CanMsg) (st : MessageLogger),
      (processRx2019 db st msgs).can1_rx = st.can1_rx + msgs.length
  | [], st => by simp [processRx2019]
  | m :: rest, st => by
      have h := processRx2019_count db rest (onMessageReceived2019 db st m).1
      simp only [processRx2019, List.foldl_cons] at h ⊢
      rw [h, rx_step_2019 db st m, List.length_cons]
      omega

lemma processRxDebug_count (db : Option Codec) :
    ∀ (msgs : List CanMsg) (st : OnCanDebugState),
      (processRxDebug db st msgs).msg_count = st.msg_count + msgs.length
  | [], st => by simp [processRxDebug]
  | m :: rest, st => by
      have h := processRxDebug_count db rest (onMessageReceivedDebug db st m).1
      simp only [processRxDebug, List.foldl_cons] at h ⊢
      rw [h, rx_step_debug db st m, List.length_cons]
      omega

/-- C3: each reception handler increments its received-message counter by
exactly one for every frame regardless of its kind, so after any sequence of
frames the counter equals its initial value plus the number of frames, and
it is monotonically non-decreasing over the run. -/
theorem rx_count_every_frame (db : Option Codec) (st : MessageLogger)
    (stD : OnCanDebugState) (msg : CanMsg) (msgs rest : List CanMsg) :
    ((onMessageReceived2019 db st msg).1.can1_rx = st.can1_rx + 1)
    ∧ ((onMessageReceivedDebug db stD msg).1.msg_count = stD.msg_count + 1)
    ∧ ((processRx2019 db st msgs).can1_rx = st.can1_rx + msgs.length)
    ∧ ((processRxDebug db stD msgs).msg_count = stD.msg_count + msgs.length)
    ∧ ((processRx2019 db st msgs).can1_rx ≤ (processRx2019 db st (msgs ++ rest)).can1_rx) := by
  refine ⟨rx_step_2019 db st msg, rx_step_debug db stD msg,
    processRx2019_count db msgs st, processRxDebug_count db msgs stD, ?_⟩
  rw [processRx2019_count db msgs st, processRx2019_count db (msgs ++ rest) st,
    List.length_append]
  omega

/-- C10: for every entry of the `STATIC_MSGS` table and every tick, the
payload assembled by the rpi and debug send loops equals the entry's fixed
payload `vl` byte-for-byte: no table entry has arbitration id 0x489 or
0x48a, so the rolling-counter branch is unreachable. -/
theorem static_payload_sent_verbatim (e : StaticMsg) (he : e ∈ STATIC_MSGS) :
    ∀ frame, tosendRpi e frame = e.vl ∧ tosendDebug e frame = e.vl := by
  fin_cases he <;> exact fun _ => ⟨rfl, rfl⟩

/-- Witness for C10 at the first table entry and tick 7. -/
theorem static_payload_sent_verbatim_check :
    tosendRpi ⟨0x141, 1, [0, 3, 1, 2, 4], 1, 2, [0x00, 0x00, 0x00, 0x46]⟩ 7
        = [0x00, 0x00, 0x00, 0x46]
    ∧ tosendDebug ⟨0x141, 1, [0, 3, 1, 2, 4], 1, 2, [0x00, 0x00, 0x00, 0x46]⟩ 7
        = [0x00, 0x00, 0x00, 0x46] :=
  static_payload_sent_verbatim ⟨0x141, 1, [0, 3, 1, 2, 4], 1, 2, [0x00, 0x00, 0x00, 0x46]⟩
    (by decide) 7

lemma runSends_all_ok :
    ∀ rs : List (Except String Unit), (∀ r ∈ rs, r = Except.ok ()) →
      runSends rs = (Except.ok (), rs.length, rs.length)
  | [], _ => rfl
  | r :: rs, h => by
      have hr : r = Except.ok () := h r (List.mem_cons_self r rs)
      subst hr
      have ih := runSends_all_ok rs (fun x hx => h x (List.mem_cons_of_mem _ hx))
      simp [runSends, ih]

lemma runSends_append_ok :
    ∀ (oks : List (Except String Unit)), (∀ r ∈ oks, r = Except.ok ()) →
      ∀ tail, runSends (oks ++ tail)
        = ((runSends tail).1, oks.length + (runSends tail).2.1,
            oks.length + (runSends tail).2.2)
  | [], _, tail => by simp [runSends]
  | r :: rs, h, tail => by
      have hr : r = Except.ok () := h r (List.mem_cons_self r rs)
      subst hr
      have ih := runSends_append_ok rs (fun x hx => h x (List.mem_cons_of_mem _ hx)) tail
      simp [runSends, ih]
      omega

/-- C4 counterexample: in the scripts' transmission loops a send failure is
not caught inside the loop body — the first raising send makes the error
escape the tick, and the remaining sends of the same tick are never begun
(only 1 of 3 calls is attempted here). -/
theorem keepalive_catch_cex :
    (runSends [Except.error "bus down", Except.ok (), Except.ok ()]).1
        = Except.error "bus down"
    ∧ (runSends [Except.error "bus down", Except.ok (), Except.ok ()]).2.1 = 1 :=
  ⟨rfl, rfl⟩

/-- C4 amended: in the scripts' steady-state transmission loops a send
failure is not caught inside the loop body: the first failing send aborts
the tick, the remaining StaticFrameSpecs of that tick are not attempted,
and the error propagates out of the while loop (rpi catches it only outside
the loop, ending transmission; there is no `last_error` in the scripts).
The transmit counter is incremented only for sends that succeed:
`send_message` increments `can0_tx` only after `bus.send` returns, and a
tick with a failure counts exactly the successes that preceded it. -/
theorem keepalive_failure_escapes (oks rest : List (Except String Unit)) (e : String)
    (h : ∀ r ∈ oks, r = Except.ok ()) :
    (runSends (oks ++ Except.error e :: rest)).1 = Except.error e
    ∧ (runSends (oks ++ Except.error e :: rest)).2.1 = oks.length + 1
    ∧ (runSends (oks ++ Except.error e :: rest)).2.2 = oks.length
    ∧ (∀ n, send_message2019 (Except.ok ()) n = Except.ok (n + 1))
    ∧ (∀ n e2, send_message2019 (Except.error e2) n = Except.error e2) := by
  have happ := runSends_append_ok oks h (Except.error e :: rest)
  refine ⟨?_, ?_, ?_, fun n => rfl, fun n e2 => rfl⟩ <;>
    simp [happ, runSends]

/-- Witness for C4 amended: one successful send followed by a failing one. -/
theorem keepalive_failure_escapes_check :
    (runSends [Except.ok (), Except.error "bus down"]).1 = Except.error "bus down"
    ∧ (runSends [Except.ok (), Except.error "bus down"]).2.1 = 2
    ∧ (runSends [Except.ok (), Except.error "bus down"]).2.2 = 1 := by
  have h := keepalive_failure_escapes [Except.ok ()] [] "bus down"
    (fun r hr => by rw [List.mem_singleton] at hr; exact hr)
  exact ⟨h.1, h.2.1, h.2.2.1⟩

/-- C5 counterexample: the post-iteration delay of the rpi main loop cannot
be expressed as sleeping until any fixed-rate deadline — a deadline-based
delay depends on the iteration's completion time, while the script's delay
is the constant `1/100` at both `now = 0` and `now = 1/200`. -/
theorem fixed_sleep_not_deadline_cex :
    ¬ ∃ d : ℚ, ∀ now : ℚ, loopSleepRpi now = deadlineSleep d now := by
  rintro ⟨d, h⟩
  have h0 := h 0
  have h1 := h (1 / 200)
  unfold loopSleepRpi deadlineSleep at h0 h1
  rw [sub_zero] at h0
  by_cases hd : d ≤ 0
  · rw [max_eq_left hd] at h0
    norm_num at h0
  · push_neg at hd
    rw [max_eq_right (le_of_lt hd)] at h0
    rw [max_eq_right (by rw [← h0]; norm_num)] at h1
    rw [← h0] at h1
    norm_num at h1

/-- C5 amended: each script's transmission loop merely sleeps the constant
tick period 1/100 s after completing each iteration's work; the delay is
independent of the iteration's completion time, so the scheduling is a
fixed post-iteration sleep, not deadline-based. -/
theorem fixed_sleep_amended (now now2 : ℚ) :
    loopSleepRpi now = 1 / 100
    ∧ loopSleep2019 now = 1 / 100
    ∧ loopSleepDebug now = 1 / 100
    ∧ loopSleepRpi now = loopSleepRpi now2 :=
  ⟨rfl, rfl, rfl, rfl⟩

/-- C6: on every tick of each steady-state loop the freshly encoded
`ACC_CONTROL` frame carries the same constant benign values — acceleration
command 0, `RELEASE_STANDSTILL` 1, `CANCEL_REQ` 0 — so no tick encodes a
nonzero acceleration command or an asserted cancel request. -/
theorem acc_control_benign_every_tick (t : Nat) (b : Bool) :
    accEncodeRpi t = some benignAccSignals
    ∧ accEncodeDebug t = some benignAccSignals
    ∧ accEncode2019 b t = (if b then some benignAccSignals else none)
    ∧ benignAccSignals.ACCEL_CMD = 0
    ∧ benignAccSignals.RELEASE_STANDSTILL = 1
    ∧ benignAccSignals.CANCEL_REQ = 0 := by
  refine ⟨?_, ?_, ?_, rfl, rfl, rfl⟩ <;>
    cases b <;>
      simp [accEncodeRpi, accEncodeDebug, accEncode2019, benignAccSignals, Nat.mod_one]

/-- C7 (modelled from the spec; the driver module is not in the source
tree): the `new_track` flag of an upserted `RadarTrack` is true exactly when
no prior cache entry for the id existed or the prior entry's age at update
time exceeded `track_timeout`; with `track_timeout = 0.5`, updates to the
same id at times 0, 0.1 and 0.7 yield `new_track` true, false, true. -/
theorem new_track_flag_iff :
    (∀ (cache : Nat → Option RadarTrack) (timeout now : ℚ) (id : Nat) (long lat spd : ℚ),
        ((upsertTrack cache timeout now id long lat spd).2.new_track = true
          ↔ cache id = none ∨ ∃ prev, cache id = some prev ∧ now - prev.timestamp > timeout))
    ∧ scenarioStep1.2.new_track = true
    ∧ scenarioStep2.2.new_track = false
    ∧ scenarioStep3.2.new_track = true := by
  refine ⟨?_, rfl, ?_, ?_⟩
  · intro cache timeout now id long lat spd
    unfold upsertTrack
    rcases hc : cache id with _ | prev
    · simp [hc]
    · simp [hc, decide_eq_true_eq]
  · show decide ((1 : ℚ) / 10 - 0 > 1 / 2) = false
    rw [decide_eq_false_iff_not]
    norm_num
  · show decide ((7 : ℚ) / 10 - 1 / 10 > 1 / 2) = true
    rw [decide_eq_true_eq]
    norm_num

/-- C8: the shutdown/cleanup sequences never raise to their caller for any
combination of step outcomes (covering completed, partially failed and
repeated cleanup): the rpi/debug cleanup always attempts all three
stop/shutdown steps, and the 2019 cleanup always attempts at least the
notifier stop, with no error escaping in either shape. -/
theorem cleanup_never_raises (s1 s2 s3 : Except String Unit) :
    (cleanupRpi s1 s2 s3).1 = Except.ok ()
    ∧ (cleanupRpi s1 s2 s3).2.1 = 3
    ∧ (cleanup2019 s1 s2 s3).1 = Except.ok ()
    ∧ 1 ≤ (cleanup2019 s1 s2 s3).2.1 := by
  rcases s1 with e1 | u1 <;> rcases s2 with e2 | u2 <;> rcases s3 with e3 | u3 <;>
    refine ⟨rfl, rfl, rfl, ?_⟩ <;>
      (simp only [cleanup2019, tryPass, runSends]; omega)

/-- C9 counterexample: the reception paths do not all use the same track-id
window — at arbitration id 0x21F the rpi listener's predicate
(`0x210 <= id < 0x21F`) is false while the 2019, debug and experimental
listeners' predicate (`0x210 <= id <= 0x21F`) is true. -/
theorem track_window_cex :
    rpiIsTrackId 0x21F = false
    ∧ radar2019IsTrackId 0x21F = true
    ∧ debugIsTrackId 0x21F = true
    ∧ experimentalIsTrackId 0x21F = true := by
  decide

/-- C9 amended: the track-id window predicates of the four listener scripts
agree at every arbitration id except 0x21F (rpi excludes 0x21F, the others
include it), so the windows coincide only away from that id. -/
theorem track_window_agree_off_021F (id : Nat) (h : id ≠ 0x21F) :
    rpiIsTrackId id = radar2019IsTrackId id
    ∧ radar2019IsTrackId id = debugIsTrackId id
    ∧ radar2019IsTrackId id = experimentalIsTrackId id := by
  refine ⟨?_, rfl, rfl⟩
  unfold rpiIsTrackId radar2019IsTrackId
  rw [decide_eq_decide]
  omega

/-- Witness for C9 amended at id 0x215. -/
theorem track_window_agree_off_021F_check :
    rpiIsTrackId 0x215 = radar2019IsTrackId 0x215
    ∧ radar2019IsTrackId 0x215 = debugIsTrackId 0x215
    ∧ radar2019IsTrackId 0x215 = experimentalIsTrackId 0x215 :=
  track_window_agree_off_021F 0x215 (by decide)

end ToyotaRadar
